import Mathlib

/-!
Verification of the geometric resize-planning, format-sniffing and
EXIF-orientation logic of the vips Go bindings (vips.go).

Modelling conventions (shallow embedding of the Go source):

* Go `int` is modelled as `ℤ`.  Go integer division and modulo truncate
  toward zero; they are modelled by `Int.tdiv` / `Int.tmod`.
* Go `float64` / `float32` arithmetic (the `factor` and `residual`
  computations of `Resize`, the custom-gravity position arithmetic) is
  modelled exactly over `ℚ`.  `math.Floor` becomes `floorQ`, the Go
  conversion `int(...)` applied to a float truncates toward zero and
  becomes `truncQ`, and `math.Min`/`math.Max` become `min`/`max`.  None
  of the properties proved below depends on binary rounding of the
  float divisions (division by the powers of two 2/4/8 is exact in
  float64, and every decision that matters compares integers).
* Byte buffers are `List ℕ` of byte values.  Go slicing `buf[lo:hi]`
  panics when `hi > cap(buf)`; taking capacity = length (the canonical
  buffer), `goSlice` returns `none` exactly on the panicking bounds.
* The native libvips collaborator (decode/shrink/affine/extract/embed:
  the dimensions it produces and whether each call succeeds) is an
  arbitrary parameter, the `Collab` structure; theorems about the
  pipeline quantify over every possible collaborator behaviour.
-/

namespace Vips

/-- ImageType constants, in the Go `iota` order of vips.go lines 31-36. -/
def UNKNOWN : ℤ := 0

def JPEG : ℤ := 1

def PNG : ℤ := 2

def WEBP : ℤ := 3

/-- vips.go line 23. -/
def MARKER_JPEG : List ℕ := [0xff, 0xd8]

/-- vips.go line 24. -/
def MARKER_PNG : List ℕ := [0x89, 0x50]

/-- vips.go line 25. -/
def MARKER_WEBP : List ℕ := [0x57, 0x45, 0x42, 0x50]

/-- vips.go line 26. -/
def MARKER_RIFF : List ℕ := [0x52, 0x49, 0x46, 0x46]

/-- Gravity constants, Go `iota` order of vips.go lines 376-383. -/
def CENTRE : ℤ := 0

def NORTH : ℤ := 1

def EAST : ℤ := 2

def SOUTH : ℤ := 3

def WEST : ℤ := 4

def CUSTOM : ℤ := 5

/-- libvips VIPS_DIRECTION_HORIZONTAL (vips.go line 71). -/
def HORIZONTAL : ℤ := 0

/-- libvips VIPS_DIRECTION_VERTICAL (vips.go line 72). -/
def VERTICAL : ℤ := 1

/-- `math.Floor` on an exact rational: floor division of numerator by
denominator (`Rat.den` is positive, so `Int.fdiv` is the floor). -/
def floorQ (q : ℚ) : ℤ := q.num.fdiv q.den

/-- Go conversion `int(x)` of a float truncates toward zero. -/
def truncQ (q : ℚ) : ℤ := q.num.tdiv q.den

/-- The `Options` struct, vips.go lines 77-94.  Field defaults are the Go
zero values of each field type. -/
structure Options where
  Height : ℤ := 0
  Width : ℤ := 0
  Crop : Bool := false
  Enlarge : Bool := false
  Extend : ℤ := 0
  Embed : Bool := false
  Interpolator : ℤ := 0
  Gravity : ℤ := 0
  Quality : ℤ := 0
  LeftPos : ℚ := 0
  TopPos : ℚ := 0
  Savetype : ℤ := 0
  NoAutoRotate : Bool := false
  Rotate : ℤ := 0
  Flip : Bool := false
  Flop : Bool := false
deriving Repr, DecidableEq

/-- Result of the target-size derivation step. -/
structure TargetSize where
  factor : ℚ
  width : ℤ
  height : ℤ
deriving Repr, DecidableEq

/-- vips.go lines 184-207: derivation of `factor` and of the effective
`o.Width` / `o.Height` (the switch over which requested dimensions are
positive). -/
def deriveTarget (inW inH : ℤ) (o : Options) : TargetSize :=
  if 0 < o.Width ∧ 0 < o.Height then
    let xf : ℚ := (inW : ℚ) / (o.Width : ℚ)
    let yf : ℚ := (inH : ℚ) / (o.Height : ℚ)
    { factor := if o.Crop then min xf yf else max xf yf,
      width := o.Width, height := o.Height }
  else if 0 < o.Width then
    let f : ℚ := (inW : ℚ) / (o.Width : ℚ)
    { factor := f, width := o.Width, height := floorQ ((inH : ℚ) / f) }
  else if 0 < o.Height then
    let f : ℚ := (inH : ℚ) / (o.Height : ℚ)
    { factor := f, width := floorQ ((inW : ℚ) / f), height := o.Height }
  else
    { factor := 1, width := inW, height := inH }

/-- Planner state after the integral-shrink/residual computation and the
enlarge guard. -/
structure PlanState where
  factor : ℚ
  shrink : ℤ
  residual : ℚ
  width : ℤ
  height : ℤ
deriving Repr, DecidableEq

/-- vips.go lines 181-229: `factor` derivation, integral
`shrink = max 1 ⌊factor⌋` (lines 212-215), `residual = shrink/factor`
(line 218), then the enlarge guard (lines 221-229): when `Enlarge` is
false and the input is strictly smaller than the request on both axes,
everything is overridden to the identity plan. -/
def planBase (inW inH : ℤ) (o : Options) : PlanState :=
  let t := deriveTarget inW inH o
  let shrink := max 1 (floorQ t.factor)
  let residual : ℚ := (shrink : ℚ) / t.factor
  if o.Enlarge = false ∧ inW < t.width ∧ inH < t.height then
    { factor := 1, shrink := 1, residual := 0, width := inW, height := inH }
  else
    { factor := t.factor, shrink := shrink, residual := residual,
      width := t.width, height := t.height }

/-- vips.go lines 234-247: the shrink-on-load power-of-two selection
(the `switch` at lines 236-246, guarded by `typ == JPEG && shrink >= 2`). -/
def shrinkOnLoadSel (typ shrink : ℤ) : ℤ :=
  if typ = JPEG ∧ 2 ≤ shrink then
    if 8 ≤ shrink then 8 else if 4 ≤ shrink then 4 else 2
  else 1

/-- Full plan: `planBase` plus the shrink-on-load selection and, when
shrink-on-load is used, the recomputation of lines 252-254. -/
structure Plan where
  factor : ℚ
  shrink : ℤ
  residual : ℚ
  width : ℤ
  height : ℤ
  shrinkOnLoad : ℤ
deriving Repr, DecidableEq

/-- vips.go lines 181-254: the complete geometric plan.  When a
shrink-on-load factor `sol > 1` is selected, `factor` is divided by
`sol` (lines 238-245) and then lines 252-254 recompute
`factor = max factor 1`, `shrink = ⌊factor⌋`, `residual = shrink/factor`. -/
def resizePlan (typ inW inH : ℤ) (o : Options) : Plan :=
  let b := planBase inW inH o
  let sol := shrinkOnLoadSel typ b.shrink
  if 1 < sol then
    let f := max (b.factor / (sol : ℚ)) 1
    { factor := f, shrink := floorQ f, residual := (floorQ f : ℚ) / f,
      width := b.width, height := b.height, shrinkOnLoad := sol }
  else
    { factor := b.factor, shrink := b.shrink, residual := b.residual,
      width := b.width, height := b.height, shrinkOnLoad := sol }

/-- vips.go lines 385-417: crop-origin computation.  Go `/` on ints
truncates toward zero (`Int.tdiv`); the CUSTOM branch's float32
arithmetic is modelled over `ℚ`, with Go's float-to-int conversion
truncating toward zero (`truncQ`).  Note `CENTRE` has no `case` of its
own: like every gravity value not matched by a `case`, it is handled by
the `default` branch. -/
def sharpCalcCrop (inWidth inHeight outWidth outHeight : ℤ)
    (customLeftPos customTopPos : ℚ) (gravity : ℤ) : ℤ × ℤ :=
  if gravity = NORTH then
    ((inWidth - outWidth + 1).tdiv 2, 0)
  else if gravity = EAST then
    (inWidth - outWidth, (inHeight - outHeight + 1).tdiv 2)
  else if gravity = SOUTH then
    ((inWidth - outWidth + 1).tdiv 2, inHeight - outHeight)
  else if gravity = WEST then
    (0, (inHeight - outHeight + 1).tdiv 2)
  else if gravity = CUSTOM then
    let customLeft : ℚ := (inWidth : ℚ) * customLeftPos
    let customTop : ℚ := (inHeight : ℚ) * customTopPos
    let left :=
      if (inWidth : ℚ) < customLeft + (outWidth : ℚ) then inWidth - outWidth
      else truncQ customLeft
    let top :=
      if (inHeight : ℚ) < customTop + (outHeight : ℚ) then inHeight - outHeight
      else truncQ customTop
    (left, top)
  else
    ((inWidth - outWidth + 1).tdiv 2, (inHeight - outHeight + 1).tdiv 2)

/-- vips.go lines 472-508.  The first argument is the EXIF orientation
value that `vipsExifOrientation` reads from the image (0 when the tag is
absent); the second is the caller-requested angle `o.Rotate`.  When the
caller requested a positive angle the function returns `(D0, false)`
immediately, without consulting EXIF. -/
def calculateRotationAndFlip (exifOrientation angle : ℤ) : ℤ × Bool :=
  if 0 < angle then (0, false)
  else if exifOrientation = 6 then (90, false)
  else if exifOrientation = 3 then (180, false)
  else if exifOrientation = 8 then (270, false)
  else if exifOrientation = 2 then (0, true)
  else if exifOrientation = 7 then (90, true)
  else if exifOrientation = 4 then (180, true)
  else if exifOrientation = 5 then (270, true)
  else (0, false)

/-- vips.go lines 462-470: `divisor := angle % 90` (Go `%` truncates:
`Int.tmod`); subtract it when non-zero; then `math.Min(angle, 270)`. -/
def getAngle (angle : ℤ) : ℤ :=
  let divisor := angle.tmod 90
  let a := if divisor ≠ 0 then angle - divisor else angle
  min a 270

/-- The native calls `rotateAndFlipImage` decides to make: the angle
passed to `vipsRotate` (if any) and the direction passed to `vipsFlip`
(if any). -/
structure RotFlipCalls where
  rotateCall : Option ℤ
  flipCall : Option ℤ
deriving Repr, DecidableEq

/-- vips.go lines 510-539: when `NoAutoRotate` is false the EXIF-based
`calculateRotationAndFlip` result updates the local copy of `o`
(`o.Flip` is set when the EXIF flip is true, `o.Rotate` is set to the
EXIF rotation only when positive and the caller requested no rotation);
then `vipsRotate` is called iff `o.Rotate > 0` with `getAngle o.Rotate`,
and `vipsFlip` is called with HORIZONTAL when `o.Flip`, else VERTICAL
when `o.Flop`, else not at all. -/
def rotateAndFlipPlan (exif : ℤ) (o : Options) : RotFlipCalls :=
  let o1 :=
    if o.NoAutoRotate = false then
      let rf := calculateRotationAndFlip exif o.Rotate
      let oa := if rf.2 then { o with Flip := true } else o
      if 0 < rf.1 ∧ o.Rotate = 0 then { oa with Rotate := rf.1 } else oa
    else o
  let rot : Option ℤ := if 0 < o1.Rotate then some (getAngle o1.Rotate) else none
  let dir : ℤ := if o1.Flip then HORIZONTAL else if o1.Flop then VERTICAL else -1
  { rotateCall := rot, flipCall := if dir ≠ -1 then some dir else none }

/-- Go slice expression `buf[lo:hi]` with capacity = length: yields the
elements at indices `[lo, hi)`, or `none` (a runtime panic) when the
bounds exceed the buffer. -/
def goSlice (buf : List ℕ) (lo hi : ℕ) : Option (List ℕ) :=
  if lo ≤ hi ∧ hi ≤ buf.length then some ((buf.take hi).drop lo) else none

/-- Outcome of the format detection switch of vips.go lines 140-150:
either a recognized type, `unknown` (Resize returns the
"unknown image format" error), or a slice-bounds panic. -/
inductive ClassifyResult where
  | panics : ClassifyResult
  | unknown : ClassifyResult
  | found : ℤ → ClassifyResult
deriving Repr, DecidableEq

/-- vips.go lines 140-150.  The switch slices `buf[:2]` unconditionally,
and on the WEBP case slices `buf[:4]` and (only when the RIFF signature
matched, by Go's short-circuit `&&`) `buf[8:12]`; no length check guards
any of these slices. -/
def classify (buf : List ℕ) : ClassifyResult :=
  match goSlice buf 0 2 with
  | none => .panics
  | some s2 =>
    if s2 = MARKER_JPEG then .found JPEG
    else if s2 = MARKER_PNG then .found PNG
    else
      match goSlice buf 0 4 with
      | none => .panics
      | some s4 =>
        if s4 = MARKER_RIFF then
          match goSlice buf 8 12 with
          | none => .panics
          | some s8 => if s8 = MARKER_WEBP then .found WEBP else .unknown
        else .unknown

/-- The native collaborator's observable behaviour on the geometry: the
dimensions each load produces (`none` = the native call fails), the
dimensions `vips_shrink` / `vips_affine` produce (`none` = failure), and
whether `vips_extract_area` / `vips_embed` succeed. -/
structure Collab where
  decode : ℤ → List ℕ → Option (ℤ × ℤ)
  decodeShrink : List ℕ → ℤ → Option (ℤ × ℤ)
  shrinkDims : ℤ → ℤ → ℤ → Option (ℤ × ℤ)
  affineDims : ℤ → ℤ → ℚ → Option (ℤ × ℤ)
  extractOk : ℤ → ℤ → ℤ → ℤ → Bool
  embedOk : Bool

/-- Observable outcome of `Resize`: a crash, the format error, a native
error surfaced via `resizeError`, or success with the dimensions of the
image handed to the final save. -/
inductive ROut where
  | panics : ROut
  | formatErr : ROut
  | nativeErr : ROut
  | ok : ℤ → ℤ → ROut
deriving Repr, DecidableEq

/-- vips.go lines 136-366, the `Resize` pipeline restricted to its
observable geometry.  Faithful points worth noting:
* the load calls at lines 158-162 DISCARD their status; when the load
  fails the image handle stays nil and line 177 (`image.Xsize`)
  dereferences it — modelled as `.panics`;
* the shrink-on-load reload (line 256), `vips_shrink` (line 267),
  `vips_affine` (line 296), `vips_extract_area` (line 320) and
  `vips_embed` (line 330) ARE status-checked and return `resizeError()`;
* after `vips_shrink` the residual is recomputed from the actual
  post-shrink dimensions (lines 275-284);
* the affine step runs only when `residual != 0` (line 289);
* crop clamps the target to the affined dimensions (lines 318-319) and
  extracts exactly that rectangle; embed produces the target canvas;
* colourspace conversion and save do not change dimensions, and their
  statuses are not checked (lines 342, 350-357). -/
def ResizeModel (c : Collab) (buf : List ℕ) (o : Options) : ROut :=
  match classify buf with
  | .panics => .panics
  | .unknown => .formatErr
  | .found typ =>
    match c.decode typ buf with
    | none => .panics
    | some (inW, inH) =>
      let p := resizePlan typ inW inH o
      let afterLoad : Option (ℤ × ℤ) :=
        if 1 < p.shrinkOnLoad then c.decodeShrink buf p.shrinkOnLoad
        else some (inW, inH)
      match afterLoad with
      | none => .nativeErr
      | some (w1, h1) =>
        let afterShrink : Option (ℤ × ℤ × ℚ) :=
          if 1 < p.shrink then
            match c.shrinkDims w1 h1 p.shrink with
            | none => none
            | some (w2, h2) =>
              let residualx := (p.width : ℚ) / (w2 : ℚ)
              let residualy := (p.height : ℚ) / (h2 : ℚ)
              some (w2, h2,
                if o.Crop then max residualx residualy
                else min residualx residualy)
          else some (w1, h1, p.residual)
        match afterShrink with
        | none => .nativeErr
        | some (w2, h2, residual) =>
          let afterAffine : Option (ℤ × ℤ) :=
            if residual ≠ 0 then c.affineDims w2 h2 residual
            else some (w2, h2)
          match afterAffine with
          | none => .nativeErr
          | some (w3, h3) =>
            if w3 ≠ p.width ∨ h3 ≠ p.height then
              if o.Crop then
                let lt := sharpCalcCrop w3 h3 p.width p.height
                  o.LeftPos o.TopPos o.Gravity
                let cw := min w3 p.width
                let ch := min h3 p.height
                if c.extractOk lt.1 lt.2 cw ch then .ok cw ch else .nativeErr
              else if o.Embed then
                if c.embedOk then .ok p.width p.height else .nativeErr
              else .ok w3 h3
            else .ok w3 h3

/-- The callee's local copy of `o` at the moment `Resize` returns: the
quality default (lines 172-174), the width/height derivation
(lines 194-207), the enlarge-guard override (lines 226-227) and the crop
clamp (lines 318-319) all assign to the local copy.  `affW`/`affH` are
the post-affine dimensions reported by the collaborator. -/
def resizeLocalOptions (inW inH affW affH : ℤ) (o : Options) : Options :=
  let o1 := if o.Quality = 0 then { o with Quality := 100 } else o
  let t := deriveTarget inW inH o1
  let o2 := { o1 with Width := t.width, Height := t.height }
  let o3 :=
    if o2.Enlarge = false ∧ inW < o2.Width ∧ inH < o2.Height then
      { o2 with Width := inW, Height := inH }
    else o2
  if (affW ≠ o3.Width ∨ affH ≠ o3.Height) ∧ o3.Crop then
    { o3 with Width := min affW o3.Width, Height := min affH o3.Height }
  else o3

/-- Go passes `o Options` by value (vips.go line 136, `func Resize(buf
[]byte, o Options)`): the callee's assignments act on its own copy.  The
first component is the caller's variable after the call (unchanged by Go
call-by-value semantics), the second the callee's copy at return. -/
def callResize (callerOpts : Options) (inW inH affW affH : ℤ) :
    Options × Options :=
  (callerOpts, resizeLocalOptions inW inH affW affH callerOpts)

/-- Observable outcome of `AutoRotate` (vips.go lines 541-615): an error
(`nil` image after load, or `vips_autorotate` failure), the distinguished
"unchanged" result `(nil, nil)`, or the re-encoded buffer. -/
inductive AROut where
  | err : AROut
  | unchanged : AROut
  | encoded : List ℕ → AROut
deriving Repr, DecidableEq

/-- vips.go lines 541-615.  `loadOk` is whether `vips_load_from_file`
returned a non-nil image (line 576), `exif` the EXIF orientation value
of the loaded image, `autorotOk` whether `vips_autorotate` succeeded
(line 586), `encodedBuf` the buffer the save step produces.  When the
resolved rotation is 0 and the flip false, the function returns
`nil, nil` (lines 582-584) before any autorotate or re-encode call. -/
def autoRotateModel (loadOk : Bool) (exif : ℤ) (autorotOk : Bool)
    (encodedBuf : List ℕ) : AROut :=
  if loadOk = false then .err
  else
    let rf := calculateRotationAndFlip exif 0
    if rf.1 = 0 ∧ rf.2 = false then .unchanged
    else if autorotOk = false then .err
    else .encoded encodedBuf

/-! Helper lemmas. -/

/-- `floorQ` agrees with the mathematical floor on `ℚ`. -/
theorem floorQ_eq (q : ℚ) : floorQ q = ⌊q⌋ := by
  rw [Rat.floor_def, floorQ, Int.fdiv_eq_ediv _ (Int.ofNat_nonneg q.den)]

/-- Go's truncating division agrees with Euclidean division on
nonnegative dividends (nonnegative divisor 2). -/
theorem tdiv_two_nonneg (a : ℤ) (h : 0 ≤ a) : a.tdiv 2 = a / 2 := by
  lift a to ℕ using h
  rfl

/-- The shrink-on-load field of the full plan is exactly the selection
applied to the post-guard integral shrink. -/
theorem resizePlan_shrinkOnLoad (typ inW inH : ℤ) (o : Options) :
    (resizePlan typ inW inH o).shrinkOnLoad =
      shrinkOnLoadSel typ (planBase inW inH o).shrink := by
  simp only [resizePlan]
  split_ifs <;> rfl

/-- When shrink-on-load is taken, the final factor is the divided factor
clamped at 1 (lines 238-245 and 252). -/
theorem resizePlan_factor_of_sol (typ inW inH : ℤ) (o : Options)
    (h : 1 < shrinkOnLoadSel typ (planBase inW inH o).shrink) :
    (resizePlan typ inW inH o).factor =
      max ((planBase inW inH o).factor /
        ((shrinkOnLoadSel typ (planBase inW inH o).shrink : ℤ) : ℚ)) 1 := by
  simp only [resizePlan]
  rw [if_pos h]

/-- When no shrink-on-load is selected the plan is the base plan. -/
theorem resizePlan_of_sol_one (typ inW inH : ℤ) (o : Options)
    (h : ¬ 1 < shrinkOnLoadSel typ (planBase inW inH o).shrink) :
    resizePlan typ inW inH o =
      { factor := (planBase inW inH o).factor,
        shrink := (planBase inW inH o).shrink,
        residual := (planBase inW inH o).residual,
        width := (planBase inW inH o).width,
        height := (planBase inW inH o).height,
        shrinkOnLoad := shrinkOnLoadSel typ (planBase inW inH o).shrink } := by
  simp only [resizePlan]
  rw [if_neg h]

/-- Under the enlarge-guard hypotheses the base plan is the identity
plan. -/
theorem planBase_enlarge_guard (inW inH : ℤ) (o : Options)
    (hE : o.Enlarge = false) (hW : 0 < o.Width) (hH : 0 < o.Height)
    (h1 : inW < o.Width) (h2 : inH < o.Height) :
    planBase inW inH o =
      { factor := 1, shrink := 1, residual := 0, width := inW, height := inH } := by
  simp only [planBase, deriveTarget]
  split_ifs <;> first | rfl | tauto

/-! Claim theorems. -/

/-- Claim C1: enlarge guard.  For every collaborator behaviour, every
buffer whose signature classifies to some recognized type, and every
`Options` with `Enlarge = false`, `Width > 0`, `Height > 0`, if the
decoded image dimensions satisfy `inWidth < Width` and
`inHeight < Height`, then the plan degenerates to the identity
(`factor = 1`, `shrink = 1`, `residual = 0`, no shrink-on-load) and the
`Resize` pipeline succeeds with output dimensions equal to the input
dimensions, unchanged. -/
theorem enlarge_guard_identity (c : Collab) (buf : List ℕ) (o : Options)
    (typ inW inH : ℤ)
    (hc : classify buf = .found typ)
    (hd : c.decode typ buf = some (inW, inH))
    (hE : o.Enlarge = false) (hW : 0 < o.Width) (hH : 0 < o.Height)
    (h1 : inW < o.Width) (h2 : inH < o.Height) :
    resizePlan typ inW inH o =
      { factor := 1, shrink := 1, residual := 0, width := inW, height := inH,
        shrinkOnLoad := 1 }
    ∧ ResizeModel c buf o = .ok inW inH := by
  have hb := planBase_enlarge_guard inW inH o hE hW hH h1 h2
  have hsol : shrinkOnLoadSel typ (planBase inW inH o).shrink = 1 := by
    rw [hb]
    simp [shrinkOnLoadSel]
  have hp : resizePlan typ inW inH o =
      { factor := 1, shrink := 1, residual := 0, width := inW, height := inH,
        shrinkOnLoad := 1 } := by
    rw [resizePlan_of_sol_one typ inW inH o (by rw [hsol]; norm_num), hb]
    simp [shrinkOnLoadSel]
  refine ⟨hp, ?_⟩
  simp only [ResizeModel, hc, hd, hp]
  norm_num

/-- Collaborator used by the C1 witness: decoding always reports a
10 by 10 image; every other native operation fails (none is reached). -/
def collabC1 : Collab where
  decode := fun _ _ => some (10, 10)
  decodeShrink := fun _ _ => none
  shrinkDims := fun _ _ _ => none
  affineDims := fun _ _ _ => none
  extractOk := fun _ _ _ _ => false
  embedOk := false

/-- Witness for C1: a 10 by 10 JPEG resized to 20 by 20 with
`Enlarge = false` yields the identity plan and an unchanged 10 by 10
output. -/
theorem enlarge_guard_identity_witness :
    resizePlan JPEG 10 10 { Width := 20, Height := 20 } =
      { factor := 1, shrink := 1, residual := 0, width := 10, height := 10,
        shrinkOnLoad := 1 }
    ∧ ResizeModel collabC1 [0xff, 0xd8] { Width := 20, Height := 20 } = .ok 10 10 :=
  enlarge_guard_identity collabC1 [0xff, 0xd8] { Width := 20, Height := 20 }
    JPEG 10 10 (by decide) rfl rfl (by decide) (by decide) (by decide) (by decide)

/-- Claim C2: orientation decision table.  With no explicit rotation
(angle 0), `calculateRotationAndFlip` realizes exactly the table
1 to (0,false), 2 to (0,true), 3 to (180,false), 4 to (180,true),
5 to (270,true), 6 to (90,false), 7 to (90,true), 8 to (270,false),
and (0,false) for 0 and for every value outside 1..8 (the final else). -/
theorem orientation_decision_table (v : ℤ) :
    calculateRotationAndFlip v 0 =
      (if v = 1 then ((0 : ℤ), false)
       else if v = 2 then (0, true)
       else if v = 3 then (180, false)
       else if v = 4 then (180, true)
       else if v = 5 then (270, true)
       else if v = 6 then (90, false)
       else if v = 7 then (90, true)
       else if v = 8 then (270, false)
       else (0, false)) := by
  simp only [calculateRotationAndFlip]
  split_ifs <;> first | rfl | (exfalso; omega)

/-- Claim C6 (code bug): the format sniffer has no length guard.  The
empty buffer panics at `buf[:2]`, and a 4-byte RIFF prefix passes the
first two cases and panics at `buf[8:12]`; in both cases `Resize`
crashes instead of returning the "unknown image format" error. -/
theorem classify_short_buffer_panics (c : Collab) (o : Options) :
    classify [] = .panics
    ∧ classify [0x52, 0x49, 0x46, 0x46] = .panics
    ∧ ResizeModel c [] o = .panics
    ∧ ResizeModel c [0x52, 0x49, 0x46, 0x46] o = .panics := by
  have ha : classify [] = .panics := by decide
  have hb : classify [0x52, 0x49, 0x46, 0x46] = .panics := by decide
  exact ⟨ha, hb, by simp [ResizeModel, ha], by simp [ResizeModel, hb]⟩

/-- Claim C7 (code bug): the load calls at vips.go lines 158-162 discard
their status.  For any buffer whose signature matches a recognized type,
if the native load fails the pipeline does not return an error carrying
the native error string: it dereferences the nil image handle at line
177 (`image.Xsize`) and crashes. -/
theorem decode_failure_dereferences_nil (c : Collab) (buf : List ℕ)
    (o : Options) (typ : ℤ)
    (hc : classify buf = .found typ)
    (hd : c.decode typ buf = none) :
    ResizeModel c buf o = .panics ∧ ResizeModel c buf o ≠ .nativeErr := by
  have h : ResizeModel c buf o = .panics := by simp [ResizeModel, hc, hd]
  exact ⟨h, by simp [h]⟩

/-- Collaborator used by the C7 witness: every native load fails. -/
def collabC7 : Collab where
  decode := fun _ _ => none
  decodeShrink := fun _ _ => none
  shrinkDims := fun _ _ _ => none
  affineDims := fun _ _ _ => none
  extractOk := fun _ _ _ _ => false
  embedOk := false

/-- Witness for C7: a buffer carrying the JPEG signature whose native
load fails makes `Resize` crash rather than surface a native error. -/
theorem decode_failure_dereferences_nil_witness :
    ResizeModel collabC7 [0xff, 0xd8] {} = .panics
    ∧ ResizeModel collabC7 [0xff, 0xd8] {} ≠ .nativeErr :=
  decode_failure_dereferences_nil collabC7 [0xff, 0xd8] {} JPEG (by decide) rfl

/-- Claim C3 counterexample: with `NoAutoRotate = false` and an explicit
rotation of 90, an image whose EXIF orientation value 2 implies
`flip = true` gets NO horizontal flip: `calculateRotationAndFlip`
returns early with `(0, false)` as soon as the caller angle is positive,
so the EXIF-derived flip is not honored, contradicting the claim. -/
theorem explicit_rotation_exif_flip_cex :
    (rotateAndFlipPlan 2 { Rotate := 90 }).flipCall = none
    ∧ (calculateRotationAndFlip 2 0).2 = true := by decide

/-- Claim C3 (amended): for every request with `NoAutoRotate = false`
and a caller-supplied explicit positive rotation angle, EXIF is not
consulted at all: both the EXIF-derived rotation AND the EXIF-derived
flip are ignored; the caller's angle (normalized by `getAngle`) is
applied, and only the caller-requested `Flip`/`Flop` flags determine
the flip call. -/
theorem explicit_rotation_ignores_exif (exif : ℤ) (o : Options)
    (hA : o.NoAutoRotate = false) (hR : 0 < o.Rotate) :
    rotateAndFlipPlan exif o =
      { rotateCall := some (getAngle o.Rotate),
        flipCall := if o.Flip then some HORIZONTAL
                    else if o.Flop then some VERTICAL else none } := by
  have hrf : calculateRotationAndFlip exif o.Rotate = (0, false) := by
    unfold calculateRotationAndFlip
    rw [if_pos hR]
  simp only [rotateAndFlipPlan, hA, hrf]
  cases hF : o.Flip <;> cases hFl : o.Flop <;>
    simp [hF, hFl, hR, HORIZONTAL, VERTICAL]

/-- Witness for the amended C3: explicit rotation 90 on an EXIF-2 image
(the orientation whose table entry has `flip = true`) yields exactly the
caller's rotation and no flip. -/
theorem explicit_rotation_ignores_exif_witness :
    rotateAndFlipPlan 2 { Rotate := 90 } =
      { rotateCall := some (getAngle 90),
        flipCall := if ({ Rotate := 90 } : Options).Flip then some HORIZONTAL
                    else if ({ Rotate := 90 } : Options).Flop then some VERTICAL
                    else none } :=
  explicit_rotation_ignores_exif 2 { Rotate := 90 } rfl (by decide)

/-- Claim C4: shrink-on-load selection.  For a JPEG input the selected
factor is 8 when the post-guard integral shrink is at least 8, else 4
when at least 4, else 2 when at least 2, else none (1); non-JPEG inputs
never use shrink-on-load; when a factor is selected, `factor` is divided
by it (and then clamped below at 1 by the recomputation of line 252);
when none is selected the plan is unchanged. -/
theorem shrink_on_load_selection (typ inW inH : ℤ) (o : Options) :
    ((resizePlan typ inW inH o).shrinkOnLoad =
      if typ = JPEG ∧ 2 ≤ (planBase inW inH o).shrink then
        (if 8 ≤ (planBase inW inH o).shrink then 8
         else if 4 ≤ (planBase inW inH o).shrink then 4 else 2)
      else 1)
    ∧ (typ ≠ JPEG → (resizePlan typ inW inH o).shrinkOnLoad = 1)
    ∧ ((planBase inW inH o).shrink = 1 →
        (resizePlan typ inW inH o).shrinkOnLoad = 1)
    ∧ (1 < (resizePlan typ inW inH o).shrinkOnLoad →
        (resizePlan typ inW inH o).factor =
          max ((planBase inW inH o).factor /
            (((resizePlan typ inW inH o).shrinkOnLoad : ℤ) : ℚ)) 1)
    ∧ ((resizePlan typ inW inH o).shrinkOnLoad = 1 →
        (resizePlan typ inW inH o).factor = (planBase inW inH o).factor
        ∧ (resizePlan typ inW inH o).shrink = (planBase inW inH o).shrink
        ∧ (resizePlan typ inW inH o).residual = (planBase inW inH o).residual) := by
  have hsol := resizePlan_shrinkOnLoad typ inW inH o
  refine ⟨by rw [hsol]; rfl, ?_, ?_, ?_, ?_⟩
  · intro hJ
    rw [hsol]
    simp [shrinkOnLoadSel, hJ]
  · intro h1
    rw [hsol, h1]
    simp [shrinkOnLoadSel]
  · intro hgt
    rw [hsol] at hgt
    rw [hsol, resizePlan_factor_of_sol typ inW inH o hgt]
  · intro h1
    rw [hsol] at h1
    have := resizePlan_of_sol_one typ inW inH o (by omega)
    rw [this]
    exact ⟨rfl, rfl, rfl⟩

/-- Witness for C4: a 1000 by 1000 JPEG shrunk to 100 by 100 has
post-guard shrink 10, selects shrink-on-load 8, and its factor becomes
`max (10/8) 1 = 5/4`. -/
theorem shrink_on_load_selection_witness :
    (resizePlan JPEG 1000 1000 { Width := 100, Height := 100 }).shrinkOnLoad =
      (if JPEG = JPEG ∧ 2 ≤ (planBase 1000 1000 { Width := 100, Height := 100 }).shrink then
        (if 8 ≤ (planBase 1000 1000 { Width := 100, Height := 100 }).shrink then 8
         else if 4 ≤ (planBase 1000 1000 { Width := 100, Height := 100 }).shrink then 4
         else 2)
       else 1)
    ∧ (resizePlan JPEG 1000 1000 { Width := 100, Height := 100 }).factor =
        max ((planBase 1000 1000 { Width := 100, Height := 100 }).factor /
          (((resizePlan JPEG 1000 1000 { Width := 100, Height := 100 }).shrinkOnLoad : ℤ) : ℚ)) 1 :=
  ⟨(shrink_on_load_selection JPEG 1000 1000 { Width := 100, Height := 100 }).1,
   (shrink_on_load_selection JPEG 1000 1000 { Width := 100, Height := 100 }).2.2.2.1
     (by norm_num [resizePlan_shrinkOnLoad, shrinkOnLoadSel, planBase, deriveTarget,
       floorQ_eq, JPEG])⟩

/-- Claim C5: gravity/crop resolver.  Under `0 ≤ outW ≤ inW` and
`0 ≤ outH ≤ inH`, `sharpCalcCrop` returns exactly the per-gravity
formulas (Go integer division truncating toward zero), any gravity value
matched by no case falls to the CENTRE formulas, and for CENTRE the
origin is in bounds: `0 ≤ left`, `left + outW ≤ inW`, `0 ≤ top`,
`top + outH ≤ inH`. -/
theorem gravity_crop_resolver (inW inH outW outH : ℤ) (lp tp : ℚ)
    (hw0 : 0 ≤ outW) (hw : outW ≤ inW) (hh0 : 0 ≤ outH) (hh : outH ≤ inH) :
    sharpCalcCrop inW inH outW outH lp tp CENTRE =
      ((inW - outW + 1).tdiv 2, (inH - outH + 1).tdiv 2)
    ∧ sharpCalcCrop inW inH outW outH lp tp NORTH =
      ((inW - outW + 1).tdiv 2, 0)
    ∧ sharpCalcCrop inW inH outW outH lp tp SOUTH =
      ((inW - outW + 1).tdiv 2, inH - outH)
    ∧ sharpCalcCrop inW inH outW outH lp tp EAST =
      (inW - outW, (inH - outH + 1).tdiv 2)
    ∧ sharpCalcCrop inW inH outW outH lp tp WEST =
      (0, (inH - outH + 1).tdiv 2)
    ∧ (∀ g : ℤ, g ≠ NORTH → g ≠ EAST → g ≠ SOUTH → g ≠ WEST → g ≠ CUSTOM →
        sharpCalcCrop inW inH outW outH lp tp g =
          ((inW - outW + 1).tdiv 2, (inH - outH + 1).tdiv 2))
    ∧ (0 ≤ (sharpCalcCrop inW inH outW outH lp tp CENTRE).1
       ∧ (sharpCalcCrop inW inH outW outH lp tp CENTRE).1 + outW ≤ inW
       ∧ 0 ≤ (sharpCalcCrop inW inH outW outH lp tp CENTRE).2
       ∧ (sharpCalcCrop inW inH outW outH lp tp CENTRE).2 + outH ≤ inH) := by
  have hcentre : sharpCalcCrop inW inH outW outH lp tp CENTRE =
      ((inW - outW + 1).tdiv 2, (inH - outH + 1).tdiv 2) := by
    simp [sharpCalcCrop, CENTRE, NORTH, EAST, SOUTH, WEST, CUSTOM]
  have hdw : (inW - outW + 1).tdiv 2 = (inW - outW + 1) / 2 :=
    tdiv_two_nonneg _ (by omega)
  have hdh : (inH - outH + 1).tdiv 2 = (inH - outH + 1) / 2 :=
    tdiv_two_nonneg _ (by omega)
  refine ⟨hcentre, ?_, ?_, ?_, ?_, ?_, ?_⟩
  · simp [sharpCalcCrop, NORTH]
  · simp [sharpCalcCrop, SOUTH, NORTH, EAST]
  · simp [sharpCalcCrop, EAST, NORTH]
  · simp [sharpCalcCrop, WEST, NORTH, EAST, SOUTH]
  · intro g hg1 hg2 hg3 hg4 hg5
    simp only [sharpCalcCrop]
    rw [if_neg hg1, if_neg hg2, if_neg hg3, if_neg hg4, if_neg hg5]
  · rw [hcentre]
    constructor
    · simp only [hdw]
      omega
    constructor
    · simp only [hdw]
      omega
    constructor
    · simp only [hdh]
      omega
    · simp only [hdh]
      omega

/-- Witness for C5: a 10 by 8 source cropped to 4 by 4. -/
theorem gravity_crop_resolver_witness :
    sharpCalcCrop 10 8 4 4 0 0 NORTH = (((10 : ℤ) - 4 + 1).tdiv 2, 0)
    ∧ 0 ≤ (sharpCalcCrop 10 8 4 4 0 0 CENTRE).1
    ∧ (sharpCalcCrop 10 8 4 4 0 0 CENTRE).1 + 4 ≤ 10 :=
  ⟨(gravity_crop_resolver 10 8 4 4 0 0 (by decide) (by decide) (by decide)
      (by decide)).2.1,
   (gravity_crop_resolver 10 8 4 4 0 0 (by decide) (by decide) (by decide)
      (by decide)).2.2.2.2.2.2.1,
   (gravity_crop_resolver 10 8 4 4 0 0 (by decide) (by decide) (by decide)
      (by decide)).2.2.2.2.2.2.2.1⟩

/-- Claim C8: AutoRotate no-op signalling.  For every successfully
loaded image, when the resolved orientation is rotation 0 and flip false
the result is the distinguished `unchanged` value (Go `nil, nil`) —
reached before any autorotate or re-encode call — and `unchanged` is not
the error outcome and carries no encoded buffer; otherwise (native
autorotate succeeding) the result is the re-encoded buffer. -/
theorem autorotate_noop_signalling (exif : ℤ) (rotOk : Bool) (enc : List ℕ) :
    (calculateRotationAndFlip exif 0 = (0, false) →
      autoRotateModel true exif rotOk enc = .unchanged)
    ∧ (calculateRotationAndFlip exif 0 ≠ (0, false) → rotOk = true →
      autoRotateModel true exif rotOk enc = .encoded enc)
    ∧ (AROut.unchanged ≠ AROut.err
       ∧ ∀ b : List ℕ, AROut.unchanged ≠ AROut.encoded b) := by
  refine ⟨?_, ?_, by simp, fun b => by simp⟩
  · intro h
    simp [autoRotateModel, h]
  · intro h hr
    have h2 : ¬((calculateRotationAndFlip exif 0).1 = 0
        ∧ (calculateRotationAndFlip exif 0).2 = false) := by
      intro hh
      exact h (Prod.ext_iff.2 ⟨hh.1, hh.2⟩)
    simp [autoRotateModel, h2, hr]

/-- Witness for C8: EXIF orientation 1 resolves to (0,false) and yields
`unchanged`; EXIF orientation 6 resolves to (90,false) and yields the
re-encoded buffer. -/
theorem autorotate_noop_signalling_witness :
    autoRotateModel true 1 true [] = .unchanged
    ∧ autoRotateModel true 6 true [7] = .encoded [7] :=
  ⟨(autorotate_noop_signalling 1 true []).1 (by decide),
   (autorotate_noop_signalling 6 true [7]).2.1 (by decide) rfl⟩

/-- Claim C9 counterexample: `getAngle` does not map every input into
{0, 90, 180, 270}: at -90 (a negative caller-supplied angle, which the
Go `int`-typed `Angle` admits) it returns -90 — the truncated `%` leaves
negative multiples of 90 untouched and `min` with 270 does not raise
them. -/
theorem angle_normalization_cex :
    getAngle (-90) = -90
    ∧ getAngle (-90) ∉ ([0, 90, 180, 270] : List ℤ) := by decide

/-- Claim C9 (amended): for every NONNEGATIVE angle, `getAngle` returns
a member of {0, 90, 180, 270}, obtained by rounding the input down to
the nearest multiple of 90 and capping the result at 270. -/
theorem angle_normalization_nonneg (angle : ℤ) (h : 0 ≤ angle) :
    getAngle angle ∈ ([0, 90, 180, 270] : List ℤ)
    ∧ getAngle angle = min (90 * (angle / 90)) 270 := by
  have hm : angle.tmod 90 = angle % 90 := by
    lift angle to ℕ using h
    rfl
  simp only [getAngle, hm, List.mem_cons, List.mem_singleton, List.not_mem_nil,
    or_false]
  rcases eq_or_ne (angle % 90) 0 with h0 | h0 <;> simp only [h0, ne_eq] <;>
    constructor <;> simp only [if_true, if_false, not_true_eq_false,
      not_false_eq_true, ite_true, ite_false, reduceIte] <;> omega

/-- Witness for the amended C9: angle 100 rounds down to 90. -/
theorem angle_normalization_nonneg_witness :
    getAngle 100 ∈ ([0, 90, 180, 270] : List ℤ)
    ∧ getAngle 100 = min (90 * ((100 : ℤ) / 90)) 270 :=
  angle_normalization_nonneg 100 (by decide)

/-- Claim C10: the caller's `Options` value is unchanged by a call to
`Resize` (Go passes the struct by value), even though the callee's local
copy is really mutated during planning — exhibited concretely: for a
100 by 50 input with only `Width = 10` requested, the local copy at
return differs from the argument (`Quality` defaulted to 100 and
`Height` derived as 5). -/
theorem options_passed_by_value (callerOpts : Options) (inW inH affW affH : ℤ) :
    (callResize callerOpts inW inH affW affH).1 = callerOpts
    ∧ resizeLocalOptions 100 50 100 50 { Width := 10 } ≠ { Width := 10 } :=
  ⟨rfl, by norm_num [resizeLocalOptions, deriveTarget, floorQ_eq]⟩

end Vips
